import Mathlib

/-!
Verification of the vivian-rs transport and event-demultiplexing layer.

This file gives a shallow embedding, in Lean, of the data model and the
operations of the `milky-rust-sdk` / `milky-types` crates: the JSON wire
values, the typed event model with its two-level tagged-union decoding
(`Event` / `EventKind` / `MessageEvent`), the response-envelope
classification performed by `MilkyClient::send_request`, the API URL
construction in `MilkyClient::new`, the WebHook handler, the
shutdown protocol of the WebSocket event loop, and the bounded delivery
channel discipline of the event loop.  The derived serde serializers are
embedded as explicit encode/decode functions following the container
attributes written in the source (`tag = "event_type"`, `content = "data"`,
`rename_all = "snake_case"`, `flatten`, `skip_serializing_if`).
-/

set_option maxHeartbeats 1600000

namespace Milky

/-- JSON values as produced by `serde_json`.  Numbers are restricted to
integers, which covers every field of the event wire format (`i32`/`i64`
and booleans/strings); objects are association lists. -/
inductive Json where
  | null : Json
  | bool (b : Bool) : Json
  | num (n : Int) : Json
  | str (s : String) : Json
  | arr (items : List Json) : Json
  | obj (fields : List (String × Json)) : Json

/-- Key lookup in the field list of an object (first match). -/
def jsonLookup : List (String × Json) → String → Option Json
  | [], _ => none
  | (k, v) :: rest, key => if k = key then some v else jsonLookup rest key

/-- Embedding of `serde_json::Value::get` on an object; `None` on non-objects. -/
def Json.get? : Json → String → Option Json
  | .obj fields, key => jsonLookup fields key
  | _, _ => none

/-- Embedding of `Value::as_str`. -/
def Json.asStr : Json → Option String
  | .str s => some s
  | _ => none

/-- Decoding a JSON value as an integer (`i64`/`i32` deserialization). -/
def Json.asInt : Json → Option Int
  | .num n => some n
  | _ => none

/-- Decoding a JSON value as a boolean. -/
def Json.asBool : Json → Option Bool
  | .bool b => some b
  | _ => none

/-- A required string field of a struct. -/
def reqStr (j : Json) (k : String) : Option String := (j.get? k).bind Json.asStr

/-- A required integer field of a struct. -/
def reqInt (j : Json) (k : String) : Option Int := (j.get? k).bind Json.asInt

/-- A required boolean field of a struct. -/
def reqBool (j : Json) (k : String) : Option Bool := (j.get? k).bind Json.asBool

/-- Whether a JSON value is `null`. -/
def Json.isNull : Json → Bool
  | .null => true
  | _ => false

/-- An `Option<T>` field: serde treats a missing key or an explicit `null`
as `None`, and a present non-null value must decode as `T`. -/
def optField (dec : Json → Option α) (j : Json) (k : String) : Option (Option α) :=
  match j.get? k with
  | none => some none
  | some v => if v.isNull then some none else (dec v).map some

/-- Entry list for a field with `#[serde(skip_serializing_if = "Option::is_none")]`. -/
def optEntry (k : String) : Option Json → List (String × Json)
  | none => []
  | some v => [(k, v)]

/-- Embedding of `MessageScene` (`types/common.rs`), `rename_all = "lowercase"`. -/
inductive MessageScene where
  | Friend : MessageScene
  | Group : MessageScene
  | Temp : MessageScene
deriving DecidableEq

/-- Serialization of `MessageScene`. -/
def MessageScene.encode : MessageScene → Json
  | .Friend => .str "friend"
  | .Group => .str "group"
  | .Temp => .str "temp"

/-- Deserialization of `MessageScene`. -/
def decodeMessageScene (j : Json) : Option MessageScene :=
  match j with
  | .str "friend" => some .Friend
  | .str "group" => some .Group
  | .str "temp" => some .Temp
  | _ => none

/-- Embedding of `Sex` (`types/common.rs`), `rename_all = "lowercase"`. -/
inductive Sex where
  | Male : Sex
  | Female : Sex
  | Unknown : Sex
deriving DecidableEq

/-- Serialization of `Sex`. -/
def Sex.encode : Sex → Json
  | .Male => .str "male"
  | .Female => .str "female"
  | .Unknown => .str "unknown"

/-- Deserialization of `Sex`. -/
def decodeSex (j : Json) : Option Sex :=
  match j with
  | .str "male" => some .Male
  | .str "female" => some .Female
  | .str "unknown" => some .Unknown
  | _ => none

/-- Embedding of `GroupRole` (`types/group.rs`), `rename_all = "lowercase"`. -/
inductive GroupRole where
  | Owner : GroupRole
  | Admin : GroupRole
  | Member : GroupRole
deriving DecidableEq

/-- Serialization of `GroupRole`. -/
def GroupRole.encode : GroupRole → Json
  | .Owner => .str "owner"
  | .Admin => .str "admin"
  | .Member => .str "member"

/-- Deserialization of `GroupRole`. -/
def decodeGroupRole (j : Json) : Option GroupRole :=
  match j with
  | .str "owner" => some .Owner
  | .str "admin" => some .Admin
  | .str "member" => some .Member
  | _ => none

/-- Embedding of `Group` (`milky-types/src/types/group.rs`). -/
structure Group where
  group_id : Int
  group_name : String
  member_count : Int
  max_member_count : Int
deriving DecidableEq

/-- Serialization of `Group`. -/
def Group.encode (g : Group) : Json :=
  .obj [("group_id", .num g.group_id), ("group_name", .str g.group_name),
        ("member_count", .num g.member_count),
        ("max_member_count", .num g.max_member_count)]

/-- Deserialization of `Group`. -/
def decodeGroup (j : Json) : Option Group :=
  (reqInt j "group_id").bind fun group_id =>
  (reqStr j "group_name").bind fun group_name =>
  (reqInt j "member_count").bind fun member_count =>
  (reqInt j "max_member_count").map fun max_member_count =>
  ⟨group_id, group_name, member_count, max_member_count⟩

/-- Embedding of `GroupMember` (`milky-types/src/types/group.rs`).  `shut_up_end_time`
carries `#[serde(skip_serializing_if = "Option::is_none")]`. -/
structure GroupMember where
  user_id : Int
  nickname : String
  sex : Sex
  group_id : Int
  card : String
  title : String
  level : Int
  role : GroupRole
  join_time : Int
  last_sent_time : Int
  shut_up_end_time : Option Int
deriving DecidableEq

/-- Serialization of `GroupMember`. -/
def GroupMember.encode (m : GroupMember) : Json :=
  .obj ([("user_id", .num m.user_id), ("nickname", .str m.nickname),
         ("sex", m.sex.encode), ("group_id", .num m.group_id),
         ("card", .str m.card), ("title", .str m.title),
         ("level", .num m.level), ("role", m.role.encode),
         ("join_time", .num m.join_time),
         ("last_sent_time", .num m.last_sent_time)]
        ++ optEntry "shut_up_end_time" (m.shut_up_end_time.map Json.num))

/-- Deserialization of `GroupMember`. -/
def decodeGroupMember (j : Json) : Option GroupMember :=
  (reqInt j "user_id").bind fun user_id =>
  (reqStr j "nickname").bind fun nickname =>
  ((j.get? "sex").bind decodeSex).bind fun sex =>
  (reqInt j "group_id").bind fun group_id =>
  (reqStr j "card").bind fun card =>
  (reqStr j "title").bind fun title =>
  (reqInt j "level").bind fun level =>
  ((j.get? "role").bind decodeGroupRole).bind fun role =>
  (reqInt j "join_time").bind fun join_time =>
  (reqInt j "last_sent_time").bind fun last_sent_time =>
  (optField Json.asInt j "shut_up_end_time").map fun shut_up_end_time =>
  ⟨user_id, nickname, sex, group_id, card, title, level, role, join_time,
   last_sent_time, shut_up_end_time⟩

/-- Modelled from the spec: the `milky-types` friend module itself is not in
the source tree (only its users are); `FriendCategory` follows the friend
category record used by the friend profile. -/
structure FriendCategory where
  category_id : Int
  category_name : String
deriving DecidableEq

/-- Serialization of `FriendCategory`. -/
def FriendCategory.encode (c : FriendCategory) : Json :=
  .obj [("category_id", .num c.category_id),
        ("category_name", .str c.category_name)]

/-- Deserialization of `FriendCategory`. -/
def decodeFriendCategory (j : Json) : Option FriendCategory :=
  (reqInt j "category_id").bind fun category_id =>
  (reqStr j "category_name").map fun category_name =>
  ⟨category_id, category_name⟩

/-- Modelled from the spec: the `milky-types` friend module is missing from
the source tree; `Friend` follows the friend profile exactly as it is
constructed by the in-tree event round-trip tests (`user_id`, `nickname`,
`sex`, `qid`, `remark`, optional `category`). -/
structure Friend where
  user_id : Int
  nickname : String
  sex : Sex
  qid : String
  remark : String
  category : Option FriendCategory
deriving DecidableEq

/-- Serialization of `Friend`. -/
def Friend.encode (f : Friend) : Json :=
  .obj ([("user_id", .num f.user_id), ("nickname", .str f.nickname),
         ("sex", f.sex.encode), ("qid", .str f.qid),
         ("remark", .str f.remark)]
        ++ optEntry "category" (f.category.map FriendCategory.encode))

/-- Deserialization of `Friend`. -/
def decodeFriend (j : Json) : Option Friend :=
  (reqInt j "user_id").bind fun user_id =>
  (reqStr j "nickname").bind fun nickname =>
  ((j.get? "sex").bind decodeSex).bind fun sex =>
  (reqStr j "qid").bind fun qid =>
  (reqStr j "remark").bind fun remark =>
  (optField decodeFriendCategory j "category").map fun category =>
  ⟨user_id, nickname, sex, qid, remark, category⟩

/-- Embedding of `IncomingSegment` (`milky-types/src/types/message/in_coming.rs`):
closed tagged union with `rename_all = "snake_case"`, `tag = "type"`,
`content = "data"`.  Note that the serde snake-case rule turns the variant
name `XML` into the tag `x_m_l`. -/
inductive IncomingSegment where
  | Text (text : String) : IncomingSegment
  | Mention (user_id : Int) : IncomingSegment
  | MentionAll : IncomingSegment
  | Face (face_id : String) : IncomingSegment
  | Reply (message_seq : Int) : IncomingSegment
  | Image (resource_id : String) (temp_url : String) (width : Int)
      (height : Int) (summary : String) (sub_type : String) : IncomingSegment
  | Record (resource_id : String) (temp_url : String) (duration : Int) :
      IncomingSegment
  | Video (resource_id : String) (temp_url : String) (width : Int)
      (height : Int) (duration : Int) : IncomingSegment
  | File (file_id : String) (file_name : String) (file_size : Int)
      (file_hash : Option String) : IncomingSegment
  | Forward (forward_id : String) : IncomingSegment
  | MarketFace (url : String) : IncomingSegment
  | LightApp (app_name : String) (json_payload : String) : IncomingSegment
  | XML (service_id : Int) (xml_payload : String) : IncomingSegment
deriving DecidableEq

/-- Serialization of one `IncomingSegment` (two-key adjacent tagging). -/
def IncomingSegment.encode : IncomingSegment → Json
  | .Text text => .obj [("type", .str "text"), ("data", .obj [("text", .str text)])]
  | .Mention user_id =>
      .obj [("type", .str "mention"), ("data", .obj [("user_id", .num user_id)])]
  | .MentionAll => .obj [("type", .str "mention_all"), ("data", .obj [])]
  | .Face face_id =>
      .obj [("type", .str "face"), ("data", .obj [("face_id", .str face_id)])]
  | .Reply message_seq =>
      .obj [("type", .str "reply"), ("data", .obj [("message_seq", .num message_seq)])]
  | .Image resource_id temp_url width height summary sub_type =>
      .obj [("type", .str "image"),
            ("data", .obj [("resource_id", .str resource_id),
                           ("temp_url", .str temp_url), ("width", .num width),
                           ("height", .num height), ("summary", .str summary),
                           ("sub_type", .str sub_type)])]
  | .Record resource_id temp_url duration =>
      .obj [("type", .str "record"),
            ("data", .obj [("resource_id", .str resource_id),
                           ("temp_url", .str temp_url),
                           ("duration", .num duration)])]
  | .Video resource_id temp_url width height duration =>
      .obj [("type", .str "video"),
            ("data", .obj [("resource_id", .str resource_id),
                           ("temp_url", .str temp_url), ("width", .num width),
                           ("height", .num height), ("duration", .num duration)])]
  | .File file_id file_name file_size file_hash =>
      .obj [("type", .str "file"),
            ("data", .obj ([("file_id", .str file_id),
                            ("file_name", .str file_name),
                            ("file_size", .num file_size)]
                           ++ optEntry "file_hash" (file_hash.map Json.str)))]
  | .Forward forward_id =>
      .obj [("type", .str "forward"),
            ("data", .obj [("forward_id", .str forward_id)])]
  | .MarketFace url =>
      .obj [("type", .str "market_face"), ("data", .obj [("url", .str url)])]
  | .LightApp app_name json_payload =>
      .obj [("type", .str "light_app"),
            ("data", .obj [("app_name", .str app_name),
                           ("json_payload", .str json_payload)])]
  | .XML service_id xml_payload =>
      .obj [("type", .str "x_m_l"),
            ("data", .obj [("service_id", .num service_id),
                           ("xml_payload", .str xml_payload)])]

/-- Deserialization of one `IncomingSegment`: read the `type` tag, then the
`data` payload; an unknown tag is a decode failure. -/
def decodeIncomingSegment (j : Json) : Option IncomingSegment :=
  (reqStr j "type").bind fun tag =>
  (j.get? "data").bind fun data =>
  match tag with
  | "text" => (reqStr data "text").map fun text => .Text text
  | "mention" => (reqInt data "user_id").map fun user_id => .Mention user_id
  | "mention_all" => some .MentionAll
  | "face" => (reqStr data "face_id").map fun face_id => .Face face_id
  | "reply" =>
      (reqInt data "message_seq").map fun message_seq => .Reply message_seq
  | "image" =>
      (reqStr data "resource_id").bind fun resource_id =>
      (reqStr data "temp_url").bind fun temp_url =>
      (reqInt data "width").bind fun width =>
      (reqInt data "height").bind fun height =>
      (reqStr data "summary").bind fun summary =>
      (reqStr data "sub_type").map fun sub_type =>
      .Image resource_id temp_url width height summary sub_type
  | "record" =>
      (reqStr data "resource_id").bind fun resource_id =>
      (reqStr data "temp_url").bind fun temp_url =>
      (reqInt data "duration").map fun duration =>
      .Record resource_id temp_url duration
  | "video" =>
      (reqStr data "resource_id").bind fun resource_id =>
      (reqStr data "temp_url").bind fun temp_url =>
      (reqInt data "width").bind fun width =>
      (reqInt data "height").bind fun height =>
      (reqInt data "duration").map fun duration =>
      .Video resource_id temp_url width height duration
  | "file" =>
      (reqStr data "file_id").bind fun file_id =>
      (reqStr data "file_name").bind fun file_name =>
      (reqInt data "file_size").bind fun file_size =>
      (optField Json.asStr data "file_hash").map fun file_hash =>
      .File file_id file_name file_size file_hash
  | "forward" =>
      (reqStr data "forward_id").map fun forward_id => .Forward forward_id
  | "market_face" => (reqStr data "url").map fun url => .MarketFace url
  | "light_app" =>
      (reqStr data "app_name").bind fun app_name =>
      (reqStr data "json_payload").map fun json_payload =>
      .LightApp app_name json_payload
  | "x_m_l" =>
      (reqInt data "service_id").bind fun service_id =>
      (reqStr data "xml_payload").map fun xml_payload =>
      .XML service_id xml_payload
  | _ => none

/-- Deserialization of a segment list (`Vec<IncomingSegment>`). -/
def decodeSegList : List Json → Option (List IncomingSegment)
  | [] => some []
  | x :: xs =>
      (decodeIncomingSegment x).bind fun s =>
      (decodeSegList xs).map fun rest => s :: rest

/-- Deserialization of the `segments` array. -/
def decodeSegments (j : Json) : Option (List IncomingSegment) :=
  match j with
  | .arr items => decodeSegList items
  | _ => none

/-- Embedding of `IncomingMessage` (`milky-types/src/types/message/in_coming.rs`):
the shared base of every message scene. -/
structure IncomingMessage where
  peer_id : Int
  message_seq : Int
  sender_id : Int
  time : Int
  segments : List IncomingSegment
  message_scene : MessageScene
deriving DecidableEq

/-- Field entries of `IncomingMessage` (it is always `#[serde(flatten)]`-ed
into the concrete scene struct). -/
def IncomingMessage.entries (m : IncomingMessage) : List (String × Json) :=
  [("peer_id", .num m.peer_id), ("message_seq", .num m.message_seq),
   ("sender_id", .num m.sender_id), ("time", .num m.time),
   ("segments", .arr (m.segments.map IncomingSegment.encode)),
   ("message_scene", m.message_scene.encode)]

/-- Deserialization of the flattened `IncomingMessage` fields from the
enclosing object. -/
def decodeIncomingMessage (j : Json) : Option IncomingMessage :=
  (reqInt j "peer_id").bind fun peer_id =>
  (reqInt j "message_seq").bind fun message_seq =>
  (reqInt j "sender_id").bind fun sender_id =>
  (reqInt j "time").bind fun time =>
  ((j.get? "segments").bind decodeSegments).bind fun segments =>
  ((j.get? "message_scene").bind decodeMessageScene).map fun message_scene =>
  ⟨peer_id, message_seq, sender_id, time, segments, message_scene⟩

/-- Embedding of `FriendMessage`: flattened base plus the friend profile of the sender. -/
structure FriendMessage where
  message : IncomingMessage
  friend : Friend
deriving DecidableEq

/-- Serialization of `FriendMessage` (base is flattened). -/
def FriendMessage.encode (m : FriendMessage) : Json :=
  .obj (m.message.entries ++ [("friend", m.friend.encode)])

/-- Deserialization of `FriendMessage`. -/
def decodeFriendMessage (j : Json) : Option FriendMessage :=
  (decodeIncomingMessage j).bind fun message =>
  ((j.get? "friend").bind decodeFriend).map fun friend =>
  ⟨message, friend⟩

/-- Embedding of `GroupMessage`: flattened base plus group and group-member profiles. -/
structure GroupMessage where
  message : IncomingMessage
  group : Group
  group_member : GroupMember
deriving DecidableEq

/-- Serialization of `GroupMessage` (base is flattened). -/
def GroupMessage.encode (m : GroupMessage) : Json :=
  .obj (m.message.entries
        ++ [("group", m.group.encode), ("group_member", m.group_member.encode)])

/-- Deserialization of `GroupMessage`: `group` and `group_member` are
required fields. -/
def decodeGroupMessage (j : Json) : Option GroupMessage :=
  (decodeIncomingMessage j).bind fun message =>
  ((j.get? "group").bind decodeGroup).bind fun group =>
  ((j.get? "group_member").bind decodeGroupMember).map fun group_member =>
  ⟨message, group, group_member⟩

/-- Embedding of `TempMessage`: flattened base plus an optional originating group,
serialized with `skip_serializing_if = "Option::is_none"`. -/
structure TempMessage where
  message : IncomingMessage
  group : Option Group
deriving DecidableEq

/-- Serialization of `TempMessage` (base is flattened). -/
def TempMessage.encode (m : TempMessage) : Json :=
  .obj (m.message.entries ++ optEntry "group" (m.group.map Group.encode))

/-- Deserialization of `TempMessage`. -/
def decodeTempMessage (j : Json) : Option TempMessage :=
  (decodeIncomingMessage j).bind fun message =>
  (optField decodeGroup j "group").map fun group =>
  ⟨message, group⟩

/-- Embedding of `MessageEvent` (`milky-types/src/types/event.rs`): the polymorphic
payload of the message-received event, resolved by the `message_scene`
field inside the payload. -/
inductive MessageEvent where
  | Friend (m : FriendMessage) : MessageEvent
  | Group (m : GroupMessage) : MessageEvent
  | Temp (m : TempMessage) : MessageEvent
deriving DecidableEq

/-- Embedding of `impl Serialize for MessageEvent`: delegate to the concrete scene
struct. -/
def MessageEvent.encode : MessageEvent → Json
  | .Friend m => m.encode
  | .Group m => m.encode
  | .Temp m => m.encode

/-- Embedding of `impl Deserialize for MessageEvent`: read `message_scene` from inside
the payload (missing or non-string becomes the default empty string), then
dispatch to the concrete scene struct; any other scene is an error. -/
def decodeMessageEvent (v : Json) : Option MessageEvent :=
  let scene := ((v.get? "message_scene").bind Json.asStr).getD ""
  if scene = "friend" then (decodeFriendMessage v).map MessageEvent.Friend
  else if scene = "group" then (decodeGroupMessage v).map MessageEvent.Group
  else if scene = "temp" then (decodeTempMessage v).map MessageEvent.Temp
  else none

/-- Embedding of `MessageEvent::message_scene`. -/
def MessageEvent.message_scene : MessageEvent → MessageScene
  | .Friend m => m.message.message_scene
  | .Group m => m.message.message_scene
  | .Temp m => m.message.message_scene

/-- The inner `message_scene` field agrees with the `MessageEvent` variant
that carries it.  Wire values decoded by the SDK always satisfy this, but
arbitrary constructed values need not. -/
def MessageEvent.sceneCoherent : MessageEvent → Prop
  | .Friend m => m.message.message_scene = MessageScene.Friend
  | .Group m => m.message.message_scene = MessageScene.Group
  | .Temp m => m.message.message_scene = MessageScene.Temp

/-- Embedding of `EventKind` (`milky-types/src/types/event.rs`): the closed set of
event variants, wire-tagged with `tag = "event_type"`, `content = "data"`,
`rename_all = "snake_case"`. -/
inductive EventKind where
  | BotOffline (reason : String) : EventKind
  | MessageReceive (message : MessageEvent) : EventKind
  | MessageRecall (message_scene : MessageScene) (peer_id : Int)
      (message_seq : Int) (sender_id : Int) (operator_id : Int)
      (display_suffix : String) : EventKind
  | FriendRequest (initiator_id : String) (initiator_uid : Int)
      (comment : String) (via : String) : EventKind
  | GroupJoinRequest (group_id : Int) (notification_seq : Int)
      (is_filtered : Bool) (initiator_id : Int) (comment : String) : EventKind
  | GroupInvitedJoinRequest (group_id : Int) (notification_seq : Int)
      (initiator_id : Int) (target_user_id : Int) : EventKind
  | GroupInvitation (group_id : Int) (invitation_seq : Int)
      (initiator_id : Int) : EventKind
  | FriendNudge (user_id : Int) (is_self_send : Bool) (is_self_receive : Bool)
      (display_action : String) (display_suffix : String)
      (display_action_img_url : String) : EventKind
  | FriendFileUpload (user_id : Int) (file_id : String) (file_name : String)
      (file_size : Int) (file_hash : String) (is_self : Bool) : EventKind
  | GroupAdminChange (group_id : Int) (user_id : Int) (operator_id : Int)
      (is_set : Bool) : EventKind
  | GroupEssenceMessageChange (group_id : Int) (message_seq : Int)
      (is_set : Bool) : EventKind
  | GroupMemberIncrease (group_id : Int) (user_id : Int)
      (operator_id : Option Int) (invitor_id : Option Int) : EventKind
  | GroupMemberDecrease (group_id : Int) (user_id : Int)
      (operator_id : Option Int) : EventKind
  | GroupNameChange (group_id : Int) (group_new_name : String)
      (operator_id : Int) : EventKind
  | GroupMessageReaction (group_id : Int) (user_id : Int) (message_seq : Int)
      (face_id : String) (is_add : Bool) : EventKind
  | GroupMute (group_id : Int) (user_id : Int) (operator_id : Int)
      (duration : Int) : EventKind
  | GroupWholeMute (group_id : Int) (operator_id : Int) (is_mute : Bool) :
      EventKind
  | GroupNudge (group_id : Int) (sender_id : Int) (receiver_id : Int)
      (display_action : String) (display_suffix : String)
      (display_action_img_url : String) : EventKind
  | GroupFileUpload (group_id : Int) (user_id : Int) (file_id : String)
      (file_name : String) (file_size : Int) : EventKind
deriving DecidableEq

/-- Serialization of `EventKind`: adjacent tagging with the snake-cased
variant name under `event_type` and the payload under `data`.  The
message-received payload is the flattened `MessageEvent`. -/
def EventKind.encode : EventKind → Json
  | .BotOffline reason =>
      .obj [("event_type", .str "bot_offline"),
            ("data", .obj [("reason", .str reason)])]
  | .MessageReceive message =>
      .obj [("event_type", .str "message_receive"), ("data", message.encode)]
  | .MessageRecall message_scene peer_id message_seq sender_id operator_id
      display_suffix =>
      .obj [("event_type", .str "message_recall"),
            ("data", .obj [("message_scene", message_scene.encode),
                           ("peer_id", .num peer_id),
                           ("message_seq", .num message_seq),
                           ("sender_id", .num sender_id),
                           ("operator_id", .num operator_id),
                           ("display_suffix", .str display_suffix)])]
  | .FriendRequest initiator_id initiator_uid comment via =>
      .obj [("event_type", .str "friend_request"),
            ("data", .obj [("initiator_id", .str initiator_id),
                           ("initiator_uid", .num initiator_uid),
                           ("comment", .str comment), ("via", .str via)])]
  | .GroupJoinRequest group_id notification_seq is_filtered initiator_id
      comment =>
      .obj [("event_type", .str "group_join_request"),
            ("data", .obj [("group_id", .num group_id),
                           ("notification_seq", .num notification_seq),
                           ("is_filtered", .bool is_filtered),
                           ("initiator_id", .num initiator_id),
                           ("comment", .str comment)])]
  | .GroupInvitedJoinRequest group_id notification_seq initiator_id
      target_user_id =>
      .obj [("event_type", .str "group_invited_join_request"),
            ("data", .obj [("group_id", .num group_id),
                           ("notification_seq", .num notification_seq),
                           ("initiator_id", .num initiator_id),
                           ("target_user_id", .num target_user_id)])]
  | .GroupInvitation group_id invitation_seq initiator_id =>
      .obj [("event_type", .str "group_invitation"),
            ("data", .obj [("group_id", .num group_id),
                           ("invitation_seq", .num invitation_seq),
                           ("initiator_id", .num initiator_id)])]
  | .FriendNudge user_id is_self_send is_self_receive display_action
      display_suffix display_action_img_url =>
      .obj [("event_type", .str "friend_nudge"),
            ("data", .obj [("user_id", .num user_id),
                           ("is_self_send", .bool is_self_send),
                           ("is_self_receive", .bool is_self_receive),
                           ("display_action", .str display_action),
                           ("display_suffix", .str display_suffix),
                           ("display_action_img_url",
                            .str display_action_img_url)])]
  | .FriendFileUpload user_id file_id file_name file_size file_hash is_self =>
      .obj [("event_type", .str "friend_file_upload"),
            ("data", .obj [("user_id", .num user_id),
                           ("file_id", .str file_id),
                           ("file_name", .str file_name),
                           ("file_size", .num file_size),
                           ("file_hash", .str file_hash),
                           ("is_self", .bool is_self)])]
  | .GroupAdminChange group_id user_id operator_id is_set =>
      .obj [("event_type", .str "group_admin_change"),
            ("data", .obj [("group_id", .num group_id),
                           ("user_id", .num user_id),
                           ("operator_id", .num operator_id),
                           ("is_set", .bool is_set)])]
  | .GroupEssenceMessageChange group_id message_seq is_set =>
      .obj [("event_type", .str "group_essence_message_change"),
            ("data", .obj [("group_id", .num group_id),
                           ("message_seq", .num message_seq),
                           ("is_set", .bool is_set)])]
  | .GroupMemberIncrease group_id user_id operator_id invitor_id =>
      .obj [("event_type", .str "group_member_increase"),
            ("data", .obj ([("group_id", .num group_id),
                            ("user_id", .num user_id)]
                           ++ optEntry "operator_id" (operator_id.map Json.num)
                           ++ optEntry "invitor_id" (invitor_id.map Json.num)))]
  | .GroupMemberDecrease group_id user_id operator_id =>
      .obj [("event_type", .str "group_member_decrease"),
            ("data", .obj ([("group_id", .num group_id),
                            ("user_id", .num user_id)]
                           ++ optEntry "operator_id"
                               (operator_id.map Json.num)))]
  | .GroupNameChange group_id group_new_name operator_id =>
      .obj [("event_type", .str "group_name_change"),
            ("data", .obj [("group_id", .num group_id),
                           ("group_new_name", .str group_new_name),
                           ("operator_id", .num operator_id)])]
  | .GroupMessageReaction group_id user_id message_seq face_id is_add =>
      .obj [("event_type", .str "group_message_reaction"),
            ("data", .obj [("group_id", .num group_id),
                           ("user_id", .num user_id),
                           ("message_seq", .num message_seq),
                           ("face_id", .str face_id),
                           ("is_add", .bool is_add)])]
  | .GroupMute group_id user_id operator_id duration =>
      .obj [("event_type", .str "group_mute"),
            ("data", .obj [("group_id", .num group_id),
                           ("user_id", .num user_id),
                           ("operator_id", .num operator_id),
                           ("duration", .num duration)])]
  | .GroupWholeMute group_id operator_id is_mute =>
      .obj [("event_type", .str "group_whole_mute"),
            ("data", .obj [("group_id", .num group_id),
                           ("operator_id", .num operator_id),
                           ("is_mute", .bool is_mute)])]
  | .GroupNudge group_id sender_id receiver_id display_action display_suffix
      display_action_img_url =>
      .obj [("event_type", .str "group_nudge"),
            ("data", .obj [("group_id", .num group_id),
                           ("sender_id", .num sender_id),
                           ("receiver_id", .num receiver_id),
                           ("display_action", .str display_action),
                           ("display_suffix", .str display_suffix),
                           ("display_action_img_url",
                            .str display_action_img_url)])]
  | .GroupFileUpload group_id user_id file_id file_name file_size =>
      .obj [("event_type", .str "group_file_upload"),
            ("data", .obj [("group_id", .num group_id),
                           ("user_id", .num user_id),
                           ("file_id", .str file_id),
                           ("file_name", .str file_name),
                           ("file_size", .num file_size)])]

/-- The tag dispatch of the derived `EventKind` deserializer: compare the
`event_type` tag with each snake-cased variant name; an unknown tag is a
decode failure, never a panic. -/
def decodeEventKindTag (tag : String) (data : Json) : Option EventKind :=
  if tag = "bot_offline" then (reqStr data "reason").map fun reason => .BotOffline reason
  else if tag = "message_receive" then
      (decodeMessageEvent data).map fun message => .MessageReceive message
  else if tag = "message_recall" then
      ((data.get? "message_scene").bind decodeMessageScene).bind
        fun message_scene =>
      (reqInt data "peer_id").bind fun peer_id =>
      (reqInt data "message_seq").bind fun message_seq =>
      (reqInt data "sender_id").bind fun sender_id =>
      (reqInt data "operator_id").bind fun operator_id =>
      (reqStr data "display_suffix").map fun display_suffix =>
      .MessageRecall message_scene peer_id message_seq sender_id operator_id
        display_suffix
  else if tag = "friend_request" then
      (reqStr data "initiator_id").bind fun initiator_id =>
      (reqInt data "initiator_uid").bind fun initiator_uid =>
      (reqStr data "comment").bind fun comment =>
      (reqStr data "via").map fun via =>
      .FriendRequest initiator_id initiator_uid comment via
  else if tag = "group_join_request" then
      (reqInt data "group_id").bind fun group_id =>
      (reqInt data "notification_seq").bind fun notification_seq =>
      (reqBool data "is_filtered").bind fun is_filtered =>
      (reqInt data "initiator_id").bind fun initiator_id =>
      (reqStr data "comment").map fun comment =>
      .GroupJoinRequest group_id notification_seq is_filtered initiator_id
        comment
  else if tag = "group_invited_join_request" then
      (reqInt data "group_id").bind fun group_id =>
      (reqInt data "notification_seq").bind fun notification_seq =>
      (reqInt data "initiator_id").bind fun initiator_id =>
      (reqInt data "target_user_id").map fun target_user_id =>
      .GroupInvitedJoinRequest group_id notification_seq initiator_id
        target_user_id
  else if tag = "group_invitation" then
      (reqInt data "group_id").bind fun group_id =>
      (reqInt data "invitation_seq").bind fun invitation_seq =>
      (reqInt data "initiator_id").map fun initiator_id =>
      .GroupInvitation group_id invitation_seq initiator_id
  else if tag = "friend_nudge" then
      (reqInt data "user_id").bind fun user_id =>
      (reqBool data "is_self_send").bind fun is_self_send =>
      (reqBool data "is_self_receive").bind fun is_self_receive =>
      (reqStr data "display_action").bind fun display_action =>
      (reqStr data "display_suffix").bind fun display_suffix =>
      (reqStr data "display_action_img_url").map fun display_action_img_url =>
      .FriendNudge user_id is_self_send is_self_receive display_action
        display_suffix display_action_img_url
  else if tag = "friend_file_upload" then
      (reqInt data "user_id").bind fun user_id =>
      (reqStr data "file_id").bind fun file_id =>
      (reqStr data "file_name").bind fun file_name =>
      (reqInt data "file_size").bind fun file_size =>
      (reqStr data "file_hash").bind fun file_hash =>
      (reqBool data "is_self").map fun is_self =>
      .FriendFileUpload user_id file_id file_name file_size file_hash is_self
  else if tag = "group_admin_change" then
      (reqInt data "group_id").bind fun group_id =>
      (reqInt data "user_id").bind fun user_id =>
      (reqInt data "operator_id").bind fun operator_id =>
      (reqBool data "is_set").map fun is_set =>
      .GroupAdminChange group_id user_id operator_id is_set
  else if tag = "group_essence_message_change" then
      (reqInt data "group_id").bind fun group_id =>
      (reqInt data "message_seq").bind fun message_seq =>
      (reqBool data "is_set").map fun is_set =>
      .GroupEssenceMessageChange group_id message_seq is_set
  else if tag = "group_member_increase" then
      (reqInt data "group_id").bind fun group_id =>
      (reqInt data "user_id").bind fun user_id =>
      (optField Json.asInt data "operator_id").bind fun operator_id =>
      (optField Json.asInt data "invitor_id").map fun invitor_id =>
      .GroupMemberIncrease group_id user_id operator_id invitor_id
  else if tag = "group_member_decrease" then
      (reqInt data "group_id").bind fun group_id =>
      (reqInt data "user_id").bind fun user_id =>
      (optField Json.asInt data "operator_id").map fun operator_id =>
      .GroupMemberDecrease group_id user_id operator_id
  else if tag = "group_name_change" then
      (reqInt data "group_id").bind fun group_id =>
      (reqStr data "group_new_name").bind fun group_new_name =>
      (reqInt data "operator_id").map fun operator_id =>
      .GroupNameChange group_id group_new_name operator_id
  else if tag = "group_message_reaction" then
      (reqInt data "group_id").bind fun group_id =>
      (reqInt data "user_id").bind fun user_id =>
      (reqInt data "message_seq").bind fun message_seq =>
      (reqStr data "face_id").bind fun face_id =>
      (reqBool data "is_add").map fun is_add =>
      .GroupMessageReaction group_id user_id message_seq face_id is_add
  else if tag = "group_mute" then
      (reqInt data "group_id").bind fun group_id =>
      (reqInt data "user_id").bind fun user_id =>
      (reqInt data "operator_id").bind fun operator_id =>
      (reqInt data "duration").map fun duration =>
      .GroupMute group_id user_id operator_id duration
  else if tag = "group_whole_mute" then
      (reqInt data "group_id").bind fun group_id =>
      (reqInt data "operator_id").bind fun operator_id =>
      (reqBool data "is_mute").map fun is_mute =>
      .GroupWholeMute group_id operator_id is_mute
  else if tag = "group_nudge" then
      (reqInt data "group_id").bind fun group_id =>
      (reqInt data "sender_id").bind fun sender_id =>
      (reqInt data "receiver_id").bind fun receiver_id =>
      (reqStr data "display_action").bind fun display_action =>
      (reqStr data "display_suffix").bind fun display_suffix =>
      (reqStr data "display_action_img_url").map fun display_action_img_url =>
      .GroupNudge group_id sender_id receiver_id display_action display_suffix
        display_action_img_url
  else if tag = "group_file_upload" then
      (reqInt data "group_id").bind fun group_id =>
      (reqInt data "user_id").bind fun user_id =>
      (reqStr data "file_id").bind fun file_id =>
      (reqStr data "file_name").bind fun file_name =>
      (reqInt data "file_size").map fun file_size =>
      .GroupFileUpload group_id user_id file_id file_name file_size
  else none

/-- Deserialization of `EventKind` from the enclosing frame object: read
the `event_type` tag, then the `data` payload, and dispatch on the closed
tag set. -/
def decodeEventKind (j : Json) : Option EventKind :=
  (reqStr j "event_type").bind fun tag =>
  (j.get? "data").bind fun data =>
  decodeEventKindTag tag data

/-- Embedding of `Event` (`milky-types/src/types/event.rs`): outer frame with flattened
`EventKind`. -/
structure Event where
  time : Int
  self_id : Int
  kind : EventKind
deriving DecidableEq

/-- Deserialization of one inbound frame into an `Event`
(`serde_json::from_str::<Event>` / `from_value::<Event>`): the outer
`time`/`self_id` fields plus the flattened two-key event tag. -/
def decodeEvent (j : Json) : Option Event :=
  (reqInt j "time").bind fun time =>
  (reqInt j "self_id").bind fun self_id =>
  (decodeEventKind j).map fun kind =>
  ⟨time, self_id, kind⟩

/-- Wire coherence for a constructible `EventKind`: the only constraint is
that the inner `message_scene` of a message-received payload agrees with its
variant. -/
def EventKind.wireCoherent : EventKind → Prop
  | .MessageReceive m => m.sceneCoherent
  | _ => True

/-- Embedding of `ApiResponse<T>` (`milky-types/src/types/common.rs`), with `data`
already held as a raw JSON value (`ApiResponse<Value>`), which is exactly
how `send_request` first parses the body. -/
structure ApiResponse where
  status : String
  retcode : Int
  data : Option Json
  message : Option String

/-- Outcome of `MilkyClient::send_request`, mirroring the `MilkyError`
variants that the function can produce after the HTTP exchange:
success, `MilkyError::Json` (payload shape mismatch), `MilkyError::ApiError`
(application-level rejection) and `MilkyError::HttpApiError`
(HTTP-level failure). -/
inductive SendResult (R : Type) where
  | Ok (value : R) : SendResult R
  | JsonError : SendResult R
  | ApiError (message : String) (retcode : Int) : SendResult R
  | HttpApiError (status : Nat) (body : String) : SendResult R
deriving DecidableEq

/-- The response classification of `MilkyClient::send_request`
(`crates/milky-rust-sdk/src/client.rs`), given the HTTP status code, the
parsed envelope of the body (used only when the status test succeeds) and
the raw body text (used only when it fails).  The source tests
`status == StatusCode::OK`, i.e. equality with 200. -/
def sendRequestClassify (decodeR : Json → Option R) (httpStatus : Nat)
    (env : ApiResponse) (bodyText : String) : SendResult R :=
  if httpStatus = 200 then
    if env.status = "ok" ∧ env.retcode = 0 then
      match decodeR (env.data.getD Json.null) with
      | some value => .Ok value
      | none => .JsonError
    else
      .ApiError (env.message.getD "未知的 API 错误") env.retcode
  else
    .HttpApiError httpStatus bodyText

/-- The outcome is a transport-level error (`HttpApiError`). -/
def SendResult.isTransportError : SendResult R → Prop
  | .HttpApiError _ _ => True
  | _ => False

/-- The outcome is an application-level error (`ApiError`). -/
def SendResult.isApplicationError : SendResult R → Prop
  | .ApiError _ _ => True
  | _ => False

/-- The outcome is the success path: either a typed value or the distinct
payload-decode (`Json`) error raised while converting `data`. -/
def SendResult.isSuccessPath : SendResult R → Prop
  | .Ok _ => True
  | .JsonError => True
  | _ => False

/-- Exactly one of three alternatives holds. -/
def exactlyOneOfThree (p q r : Prop) : Prop :=
  (p ∧ ¬q ∧ ¬r) ∨ (¬p ∧ q ∧ ¬r) ∨ (¬p ∧ ¬q ∧ r)

/-- A parsed URL as far as `MilkyClient` manipulates one: scheme, host,
optional port and path. -/
structure Url where
  scheme : String
  host : String
  port : Option Nat
  path : String
deriving DecidableEq

/-- Embedding of `Url::set_path`: the stored path always starts with a slash. -/
def Url.setPath (u : Url) (p : String) : Url :=
  { u with path := if p.data.head? = some '/' then p else "/" ++ p }

/-- The RFC 3986 merge step used by `Url::join` for a relative reference:
keep the base path up to and including its last slash. -/
def keepThroughLastSlash (p : String) : String :=
  String.mk ((p.data.reverse.dropWhile (fun c => c ≠ '/')).reverse)

/-- Embedding of `Url::join` restricted to a plain relative path segment (no slash,
query, fragment, scheme or dot segments), which is the only shape of
`action` the SDK ever joins: the last segment of the base path is replaced
by the reference. -/
def Url.join (u : Url) (reference : String) : Url :=
  { u with path := keepThroughLastSlash u.path ++ reference }

/-- An action name is a plain path segment. -/
def isPlainSegment (s : String) : Bool :=
  s ≠ "" && s.data.all fun c =>
    c ≠ '/' && c ≠ '?' && c ≠ '#' && c ≠ ':' && c ≠ '.'

/-- Embedding of `WebSocketConfig` (`types/communication.rs`); the endpoint is held
already parsed. -/
structure WebSocketConfig where
  ws_endpoint : Url
  access_token : Option String

/-- Embedding of `WebHookConfig` (`types/communication.rs`); the HTTP endpoint is held
already parsed. -/
structure WebHookConfig where
  host : String
  port : Int
  http_endpoint : Url
  access_token : Option String

/-- Embedding of `Communication` (`types/communication.rs`). -/
inductive Communication where
  | WebSocket (config : WebSocketConfig) : Communication
  | WebHook (config : WebHookConfig) : Communication

/-- The `api_base_url` computed by `MilkyClient::new`: for the WebSocket
mode, the ws/wss endpoint with the scheme mapped to http/https and path
set to `"api/"` (any other scheme is `MilkyError::UnsupportedScheme`,
modelled as `none`); for the WebHook mode, the http endpoint with path set
to `"api"` (no trailing slash). -/
def apiBaseUrl : Communication → Option Url
  | .WebSocket config =>
      match config.ws_endpoint.scheme with
      | "ws" => some (Url.setPath { config.ws_endpoint with scheme := "http" } "api/")
      | "wss" => some (Url.setPath { config.ws_endpoint with scheme := "https" } "api/")
      | _ => none
  | .WebHook config => some (Url.setPath config.http_endpoint "api")

/-- The full API URL built by `MilkyClient::send_request`:
`self.api_base_url.join(action)`. -/
def sendRequestUrl (base : Url) (action : String) : Url := base.join action

/-- Embedding of `MilkyClient::handle_event_message` on a frame that has already been
turned into a JSON value (the WebHook body, or the text of a WebSocket
text frame).  The source logs a warning and swallows the error when the
frame does not decode, logs an error and swallows it when the channel
receiver is gone, and returns `Ok(())` on every path. -/
def handle_event_message (receiverOpen : Bool) (payload : Json) :
    Except String Unit :=
  match decodeEvent payload with
  | some _ =>
      if receiverOpen then Except.ok () else Except.ok ()
  | none => Except.ok ()

/-- The event forwarded into the delivery channel by
`handle_event_message`, if any. -/
def forwardedEvent (receiverOpen : Bool) (payload : Json) : Option Event :=
  match decodeEvent payload with
  | some event => if receiverOpen then some event else none
  | none => none

/-- The `axum_webhook_handler` closure in `connect_events` (WebHook mode):
respond `(200, ...)` when `handle_event_message` returns `Ok`, and
`(500, diagnostic)` when it returns `Err`. -/
def axum_webhook_handler (receiverOpen : Bool) (payload : Json) :
    Nat × String :=
  match handle_event_message receiverOpen payload with
  | Except.ok _ => (200, "Webhook received successfully")
  | Except.error e => (500, "Failed to process webhook: " ++ e)

/-- Shared state of the WebSocket event loop and the shutdown trigger.
`wsStream` and `txSlot` model the two `Arc<Mutex<Option<...>>>` slots
(`ws_stream` and `ws_shutdown_signal_tx`); the counters are ghost state
recording how many times a close frame was sent, how many times the
oneshot sender was actually fired, and how many times a present sender was
taken out of its slot. -/
structure ShutdownState where
  wsStream : Bool
  txSlot : Bool
  loopAlive : Bool
  signalSent : Bool
  closeCount : Nat
  sendOkCount : Nat
  txTakeCount : Nat
deriving DecidableEq

/-- The atomic (mutex-protected) sections that can interleave:
a `shutdown()` call, the biased shutdown arm of the loop, a successful read,
and a failed/ended read. -/
inductive ShutdownAct where
  | Shutdown : ShutdownAct
  | LoopSignal : ShutdownAct
  | LoopReadOk : ShutdownAct
  | LoopReadFail : ShutdownAct
deriving DecidableEq

/-- One atomic step of the shutdown protocol, following
`MilkyClient::shutdown` and the `tokio::select!` loop in `connect_events`:
`shutdown()` takes the sender out of its slot under the mutex and fires it
(the send succeeds only while the loop task, hence the receiver, is
alive); the shutdown arm of the loop takes the stream out of its slot under the
mutex, sends the close frame only if a stream was present, exits, and
finally takes whatever is left in the sender slot; a failed read takes the
stream (dropping it without a close frame), exits and performs the same
cleanup.  The `biased` select gives the shutdown arm priority, so read
arms only run while no signal is pending. -/
def shutdownStep : ShutdownAct → ShutdownState → ShutdownState
  | .Shutdown, s =>
      if s.txSlot then
        { s with txSlot := false, txTakeCount := s.txTakeCount + 1,
                 signalSent := s.loopAlive,
                 sendOkCount := s.sendOkCount + (if s.loopAlive then 1 else 0) }
      else s
  | .LoopSignal, s =>
      if s.loopAlive && s.signalSent then
        { s with signalSent := false, loopAlive := false, wsStream := false,
                 closeCount := s.closeCount + (if s.wsStream then 1 else 0),
                 txSlot := false,
                 txTakeCount := s.txTakeCount + (if s.txSlot then 1 else 0) }
      else s
  | .LoopReadOk, s => s
  | .LoopReadFail, s =>
      if s.loopAlive && !s.signalSent && s.wsStream then
        { s with wsStream := false, loopAlive := false, txSlot := false,
                 txTakeCount := s.txTakeCount + (if s.txSlot then 1 else 0) }
      else s

/-- The state right after `connect_events` has installed the stream and
the shutdown sender and spawned the loop. -/
def shutdownInit : ShutdownState :=
  { wsStream := true, txSlot := true, loopAlive := true, signalSent := false,
    closeCount := 0, sendOkCount := 0, txTakeCount := 0 }

/-- Run an arbitrary interleaving of atomic sections. -/
def shutdownRun (acts : List ShutdownAct) (s : ShutdownState) : ShutdownState :=
  acts.foldl (fun t a => shutdownStep a t) s

/-- Inductive invariant of the shutdown protocol. -/
def ShutdownInv (s : ShutdownState) : Prop :=
  s.closeCount ≤ 1 ∧ s.sendOkCount ≤ 1 ∧ s.txTakeCount ≤ 1 ∧
  (s.txSlot = true → s.txTakeCount = 0 ∧ s.sendOkCount = 0 ∧
    s.signalSent = false) ∧
  (s.wsStream = true → s.closeCount = 0) ∧
  (s.signalSent = true → s.txSlot = false ∧ s.sendOkCount = 1)

/-- State of the event loop together with its bounded mpsc delivery
channel: frames not yet read off the transport, a decoded event whose
`send` is suspended because the channel is full, the FIFO
buffer (capacity `cap`), and the events already taken by the consumer. -/
structure ChanSys where
  cap : Nat
  pending : List Json
  held : Option Event
  queue : List Event
  received : List Event

/-- Scheduler choices: let the loop task run, or let the consumer read. -/
inductive ChanAct where
  | produce : ChanAct
  | consume : ChanAct
deriving DecidableEq

/-- One scheduling step.  A `produce` step either completes a suspended
`send` (only when the channel has room — otherwise the loop stays
suspended, nothing is dropped and no error is raised), or reads the next
frame: a frame that fails to decode is logged and dropped and the loop
continues; a decoded event is forwarded, suspending if the channel is
full.  A `consume` step pops the FIFO head. -/
def chanStep : ChanAct → ChanSys → ChanSys
  | .produce, s =>
      match s.held with
      | some e =>
          if s.queue.length < s.cap then
            { s with queue := s.queue ++ [e], held := none }
          else s
      | none =>
          match s.pending with
          | [] => s
          | f :: rest =>
              match decodeEvent f with
              | some e =>
                  if s.queue.length < s.cap then
                    { s with pending := rest, queue := s.queue ++ [e] }
                  else
                    { s with pending := rest, held := some e }
              | none => { s with pending := rest }
  | .consume, s =>
      match s.queue with
      | [] => s
      | e :: rest => { s with queue := rest, received := s.received ++ [e] }

/-- Initial state: the loop is about to read the given frames and the
channel is empty. -/
def ChanSys.init (cap : Nat) (frames : List Json) : ChanSys :=
  { cap := cap, pending := frames, held := none, queue := [], received := [] }

/-- Run a scheduled interleaving. -/
def chanRun (acts : List ChanAct) (s : ChanSys) : ChanSys :=
  acts.foldl (fun t a => chanStep a t) s

/-- All events of the system in transport order: already consumed, then
buffered, then suspended, then the decodable part of the unread frames. -/
def ChanSys.trace (s : ChanSys) : List Event :=
  s.received ++ s.queue ++ s.held.toList ++ s.pending.filterMap decodeEvent

/-- The closed set of `event_type` tags accepted by the `EventKind`
deserializer. -/
def eventTags : List String :=
  ["bot_offline", "message_receive", "message_recall", "friend_request",
   "group_join_request", "group_invited_join_request", "group_invitation",
   "friend_nudge", "friend_file_upload", "group_admin_change",
   "group_essence_message_change", "group_member_increase",
   "group_member_decrease", "group_name_change", "group_message_reaction",
   "group_mute", "group_whole_mute", "group_nudge", "group_file_upload"]

/-- The scene string read by the `MessageEvent` deserializer
(missing or non-string `message_scene` defaults to the empty string). -/
def sceneOf (v : Json) : String :=
  ((v.get? "message_scene").bind Json.asStr).getD ""

/-- A well-formed sample frame with the given tag and payload. -/
def sampleFrame (tag : String) (data : Json) : Json :=
  .obj [("time", .num 5), ("self_id", .num 7), ("event_type", .str tag),
        ("data", data)]

/-- Sample friend-scene message payload. -/
def c3FriendData : Json :=
  .obj [("peer_id", .num 10), ("message_seq", .num 11),
        ("sender_id", .num 12), ("time", .num 13),
        ("segments", .arr [.obj [("type", .str "text"),
                                 ("data", .obj [("text", .str "hi")])]]),
        ("message_scene", .str "friend"),
        ("friend", .obj [("user_id", .num 12), ("nickname", .str "nick"),
                         ("sex", .str "male"), ("qid", .str "q"),
                         ("remark", .str "r")])]

/-- The event value the friend-scene sample decodes to. -/
def c3FriendEvent : MessageEvent :=
  .Friend ⟨⟨10, 11, 12, 13, [.Text "hi"], .Friend⟩,
           ⟨12, "nick", .Male, "q", "r", none⟩⟩

/-- Sample group payload. -/
def sampleGroupJson : Json :=
  .obj [("group_id", .num 20), ("group_name", .str "g"),
        ("member_count", .num 2), ("max_member_count", .num 3)]

/-- Sample group-member payload. -/
def sampleMemberJson : Json :=
  .obj [("user_id", .num 12), ("nickname", .str "m"),
        ("sex", .str "female"), ("group_id", .num 20), ("card", .str "c"),
        ("title", .str "t"), ("level", .num 1), ("role", .str "member"),
        ("join_time", .num 30), ("last_sent_time", .num 31)]

/-- Sample group-scene message payload with all required fields. -/
def c3GroupData : Json :=
  .obj [("peer_id", .num 20), ("message_seq", .num 11),
        ("sender_id", .num 12), ("time", .num 13), ("segments", .arr []),
        ("message_scene", .str "group"), ("group", sampleGroupJson),
        ("group_member", sampleMemberJson)]

/-- The event value the group-scene sample decodes to. -/
def c3GroupEvent : MessageEvent :=
  .Group ⟨⟨20, 11, 12, 13, [], .Group⟩, ⟨20, "g", 2, 3⟩,
          ⟨12, "m", .Female, 20, "c", "t", 1, .Member, 30, 31, none⟩⟩

/-- Sample temp-scene message payload with an originating group. -/
def c3TempData : Json :=
  .obj [("peer_id", .num 12), ("message_seq", .num 11),
        ("sender_id", .num 12), ("time", .num 13), ("segments", .arr []),
        ("message_scene", .str "temp"), ("group", sampleGroupJson)]

/-- The event value the temp-scene sample decodes to. -/
def c3TempEvent : MessageEvent :=
  .Temp ⟨⟨12, 11, 12, 13, [], .Temp⟩, some ⟨20, "g", 2, 3⟩⟩

/-- A message payload with no `message_scene` field at all. -/
def c3NoSceneData : Json :=
  .obj [("peer_id", .num 10), ("message_seq", .num 11),
        ("sender_id", .num 12), ("time", .num 13), ("segments", .arr [])]

/-- A message payload whose `message_scene` is outside the closed set. -/
def c3BadSceneData : Json :=
  .obj [("peer_id", .num 10), ("message_seq", .num 11),
        ("sender_id", .num 12), ("time", .num 13), ("segments", .arr []),
        ("message_scene", .str "channel")]

/-- A group-scene payload missing the required `group_member` field. -/
def c3NoMemberData : Json :=
  .obj [("peer_id", .num 20), ("message_seq", .num 11),
        ("sender_id", .num 12), ("time", .num 13), ("segments", .arr []),
        ("message_scene", .str "group"), ("group", sampleGroupJson)]

/-- A group-scene payload missing the required `group` field. -/
def c3NoGroupData : Json :=
  .obj [("peer_id", .num 20), ("message_seq", .num 11),
        ("sender_id", .num 12), ("time", .num 13), ("segments", .arr []),
        ("message_scene", .str "group"), ("group_member", sampleMemberJson)]

/-- A frame whose tag is outside the closed `EventKind` set. -/
def c2UnknownFrame : Json := sampleFrame "super_event" (.obj [])

/-- The first literal frame of the end-to-end scenario in the spec:
`group_nudge` with only `group_id`, `sender_id` and `receiver_id`. -/
def c5Frame1 : Json :=
  .obj [("time", .num 1), ("self_id", .num 1),
        ("event_type", .str "group_nudge"),
        ("data", .obj [("group_id", .num 1), ("sender_id", .num 2),
                       ("receiver_id", .num 3)])]

/-- The second literal frame of the end-to-end scenario:
`bot_offline` with reason `"kicked"`. -/
def c5Frame2 : Json :=
  .obj [("time", .num 2), ("self_id", .num 1),
        ("event_type", .str "bot_offline"),
        ("data", .obj [("reason", .str "kicked")])]

/-- A frame that decodes: the bot-offline sample. -/
def c2BotOfflineFrame : Json :=
  sampleFrame "bot_offline" (.obj [("reason", .str "kicked")])

/-- A malformed WebHook body: no event fields at all. -/
def c6BadPayload : Json := .obj [("foo", .num 1)]

/-- The message-received counterexample to the unconditional round-trip
property: a constructible `Friend`-variant value whose inner
`message_scene` says `group`. -/
def c4Mismatch : EventKind :=
  .MessageReceive (.Friend ⟨⟨0, 0, 0, 0, [], .Group⟩,
                            ⟨0, "", .Unknown, "", "", none⟩⟩)

theorem decodeIncomingSegment_encode (s : IncomingSegment) :
    decodeIncomingSegment s.encode = some s := by
  cases s <;>
    first
    | rfl
    | (rename_i hash
       cases hash <;>
         simp [IncomingSegment.encode, decodeIncomingSegment, reqStr, reqInt,
           optField, optEntry, Json.get?, jsonLookup, Json.asStr, Json.asInt,
           Json.isNull])

theorem decodeSegList_encode (l : List IncomingSegment) :
    decodeSegList (l.map IncomingSegment.encode) = some l := by
  induction l with
  | nil => rfl
  | cons s rest ih =>
      simp [decodeSegList, decodeIncomingSegment_encode, ih]

theorem decodeGroup_encode (g : Group) : decodeGroup g.encode = some g := by
  simp [Group.encode, decodeGroup, reqInt, reqStr, Json.get?, jsonLookup,
    Json.asInt, Json.asStr]

theorem decodeSex_encode (s : Sex) : decodeSex s.encode = some s := by
  cases s <;> rfl

theorem decodeGroupRole_encode (r : GroupRole) : decodeGroupRole r.encode = some r := by
  cases r <;> rfl

theorem decodeMessageScene_encode (s : MessageScene) :
    decodeMessageScene s.encode = some s := by
  cases s <;> rfl

theorem decodeGroupMember_encode (m : GroupMember) :
    decodeGroupMember m.encode = some m := by
  obtain ⟨u, nick, sx, g, c, t, l, r, jt, lst, sh⟩ := m
  cases sh <;>
    simp [GroupMember.encode, decodeGroupMember, reqInt, reqStr, optField,
      optEntry, Json.get?, jsonLookup, Json.asInt, Json.asStr, Json.isNull,
      decodeSex_encode, decodeGroupRole_encode]

theorem decodeFriendCategory_encode (c : FriendCategory) :
    decodeFriendCategory c.encode = some c := by
  simp [FriendCategory.encode, decodeFriendCategory, reqInt, reqStr,
    Json.get?, jsonLookup, Json.asInt, Json.asStr]

theorem isNull_friendCategory_encode (c : FriendCategory) :
    c.encode.isNull = false := rfl

theorem isNull_group_encode (g : Group) : g.encode.isNull = false := rfl

theorem decodeFriend_encode (f : Friend) : decodeFriend f.encode = some f := by
  obtain ⟨u, nick, sx, q, rem, cat⟩ := f
  cases cat <;>
    simp [Friend.encode, decodeFriend, reqInt, reqStr, optField, optEntry,
      Json.get?, jsonLookup, Json.asInt, Json.asStr,
      isNull_friendCategory_encode, decodeSex_encode,
      decodeFriendCategory_encode]

theorem decodeIncomingMessage_entries (m : IncomingMessage)
    (extra : List (String × Json)) :
    decodeIncomingMessage (.obj (m.entries ++ extra)) = some m := by
  simp [IncomingMessage.entries, decodeIncomingMessage, reqInt, Json.get?,
    jsonLookup, Json.asInt, decodeSegments, decodeSegList_encode,
    decodeMessageScene_encode]

theorem entries_scene (m : IncomingMessage) (extra : List (String × Json)) :
    ((Json.obj (m.entries ++ extra)).get? "message_scene").bind Json.asStr =
      some (match m.message_scene with
            | .Friend => "friend"
            | .Group => "group"
            | .Temp => "temp") := by
  cases h : m.message_scene <;>
    simp [IncomingMessage.entries, Json.get?, jsonLookup, Json.asStr, h,
      MessageScene.encode]

theorem decodeFriendMessage_encode (m : FriendMessage) :
    decodeFriendMessage m.encode = some m := by
  obtain ⟨msg, fr⟩ := m
  simp [FriendMessage.encode, decodeFriendMessage, decodeIncomingMessage,
    IncomingMessage.entries, reqInt, Json.get?, jsonLookup, Json.asInt,
    decodeSegments, decodeSegList_encode, decodeMessageScene_encode,
    decodeFriend_encode]

theorem decodeGroupMessage_encode (m : GroupMessage) :
    decodeGroupMessage m.encode = some m := by
  obtain ⟨msg, g, gm⟩ := m
  simp [GroupMessage.encode, decodeGroupMessage, decodeIncomingMessage,
    IncomingMessage.entries, reqInt, Json.get?, jsonLookup, Json.asInt,
    decodeSegments, decodeSegList_encode, decodeMessageScene_encode,
    decodeGroup_encode, decodeGroupMember_encode]

theorem decodeTempMessage_encode (m : TempMessage) :
    decodeTempMessage m.encode = some m := by
  obtain ⟨msg, g⟩ := m
  cases g <;>
    simp [TempMessage.encode, decodeTempMessage, decodeIncomingMessage,
      IncomingMessage.entries, reqInt, optField, optEntry, Json.get?,
      jsonLookup, Json.asInt, decodeSegments, decodeSegList_encode,
      decodeMessageScene_encode, isNull_group_encode, decodeGroup_encode]

theorem decodeMessageEvent_encode (m : MessageEvent)
    (h : m.sceneCoherent) : decodeMessageEvent m.encode = some m := by
  cases m with
  | Friend fm =>
      have h1 := decodeFriendMessage_encode fm
      obtain ⟨⟨p, q, r, t, segs, scene⟩, fr⟩ := fm
      have hs : scene = MessageScene.Friend := h
      subst hs
      simpa [MessageEvent.encode, decodeMessageEvent, FriendMessage.encode,
        IncomingMessage.entries, Json.get?, jsonLookup, Json.asStr,
        MessageScene.encode] using congrArg (Option.map MessageEvent.Friend) h1
  | Group gm =>
      have h1 := decodeGroupMessage_encode gm
      obtain ⟨⟨p, q, r, t, segs, scene⟩, g, mem⟩ := gm
      have hs : scene = MessageScene.Group := h
      subst hs
      simpa [MessageEvent.encode, decodeMessageEvent, GroupMessage.encode,
        IncomingMessage.entries, Json.get?, jsonLookup, Json.asStr,
        MessageScene.encode] using congrArg (Option.map MessageEvent.Group) h1
  | Temp tm =>
      have h1 := decodeTempMessage_encode tm
      obtain ⟨⟨p, q, r, t, segs, scene⟩, g⟩ := tm
      have hs : scene = MessageScene.Temp := h
      subst hs
      simpa [MessageEvent.encode, decodeMessageEvent, TempMessage.encode,
        IncomingMessage.entries, Json.get?, jsonLookup, Json.asStr,
        MessageScene.encode] using congrArg (Option.map MessageEvent.Temp) h1

theorem decodeEventKind_encode (k : EventKind) (h : k.wireCoherent) :
    decodeEventKind k.encode = some k := by
  cases k
  case MessageReceive m =>
      have hm : m.sceneCoherent := h
      show (decodeMessageEvent m.encode).map EventKind.MessageReceive =
        some (.MessageReceive m)
      rw [decodeMessageEvent_encode m hm]
      rfl
  case MessageRecall scene p q r o d => cases scene <;> rfl
  case GroupMemberIncrease g u op inv => cases op <;> cases inv <;> rfl
  case GroupMemberDecrease g u op => cases op <;> rfl
  all_goals rfl

theorem decodeEventKindTag_not_mem (tag : String) (data : Json)
    (h : tag ∉ eventTags) : decodeEventKindTag tag data = none := by
  simp only [eventTags, List.mem_cons, List.not_mem_nil, or_false,
    not_or] at h
  obtain ⟨nA, nB, nC, nD, nE, nF, nG, nH, nI, nJ, nK, nL, nM, nN, nO,
    nP, nQ, nR, nS⟩ := h
  unfold decodeEventKindTag
  simp [nA, nB, nC, nD, nE, nF, nG, nH, nI, nJ, nK, nL, nM, nN, nO,
    nP, nQ, nR, nS]

theorem decodeEvent_none_of_kind_none (j : Json)
    (h : decodeEventKind j = none) : decodeEvent j = none := by
  unfold decodeEvent
  cases ht : reqInt j "time" with
  | none => rfl
  | some time =>
      cases hs : reqInt j "self_id" with
      | none => rfl
      | some self_id => simp [h]

theorem decodeEvent_unknown_tag (j : Json) (tag : String)
    (htag : reqStr j "event_type" = some tag) (h : tag ∉ eventTags) :
    decodeEvent j = none := by
  apply decodeEvent_none_of_kind_none
  unfold decodeEventKind
  rw [htag]
  cases hd : j.get? "data" with
  | none => rfl
  | some data => simp [decodeEventKindTag_not_mem tag data h]

theorem chanStep_trace (a : ChanAct) (s : ChanSys) :
    (chanStep a s).trace = s.trace := by
  cases a with
  | produce =>
      cases hh : s.held with
      | some e =>
          by_cases hlen : s.queue.length < s.cap <;>
            simp [chanStep, hh, hlen, ChanSys.trace, Option.toList,
              List.append_assoc]
      | none =>
          cases hp : s.pending with
          | nil => simp [chanStep, hh, hp]
          | cons f rest =>
              cases hd : decodeEvent f with
              | some e =>
                  by_cases hlen : s.queue.length < s.cap <;>
                    simp [chanStep, hh, hp, hd, hlen, ChanSys.trace,
                      Option.toList, List.filterMap_cons, List.append_assoc]
              | none =>
                  simp [chanStep, hh, hp, hd, ChanSys.trace,
                    List.filterMap_cons]
  | consume =>
      cases hq : s.queue with
      | nil => simp [chanStep, hq]
      | cons e rest =>
          simp [chanStep, hq, ChanSys.trace, List.append_assoc]

theorem chanRun_trace (acts : List ChanAct) (s : ChanSys) :
    (chanRun acts s).trace = s.trace := by
  induction acts generalizing s with
  | nil => rfl
  | cons a rest ih =>
      rw [show chanRun (a :: rest) s = chanRun rest (chanStep a s) from rfl,
        ih, chanStep_trace]

theorem chanRun_produce_overflow :
    ∀ (front : List Event) (last : Event) (frames : List Json) (s : ChanSys),
      frames.map decodeEvent = (front ++ [last]).map some →
      s.pending = frames → s.held = none →
      s.queue.length + front.length = s.cap →
      chanRun (List.replicate (front.length + 1) ChanAct.produce) s =
        { s with pending := [], queue := s.queue ++ front,
                 held := some last } := by
  intro front
  induction front with
  | nil =>
      intro last frames s hmap hp hh hlen
      simp only [List.length_nil, Nat.add_zero] at hlen
      cases frames with
      | nil => simp at hmap
      | cons f frest =>
          cases frest with
          | cons a b =>
              have hco := congrArg List.length hmap
              simp at hco
          | nil =>
              have hf : decodeEvent f = some last := by simpa using hmap
              have hq : ¬ s.queue.length < s.cap := by omega
              simp [chanRun, chanStep, hp, hh, hf, hq]
  | cons e ft ih =>
      intro last frames s hmap hp hh hlen
      simp only [List.length_cons] at hlen
      cases frames with
      | nil => simp at hmap
      | cons f frest =>
          simp only [List.map_cons, List.cons_append] at hmap
          have hf : decodeEvent f = some e := by
            have hhd := congrArg List.head? hmap
            simpa using hhd
          have hrest : frest.map decodeEvent = (ft ++ [last]).map some := by
            have htl := congrArg List.tail hmap
            simpa using htl
          have hq : s.queue.length < s.cap := by omega
          have hstep :
              chanStep ChanAct.produce s =
                { s with pending := frest, queue := s.queue ++ [e] } := by
            simp [chanStep, hh, hp, hf, hq]
          have hrun :
              chanRun (List.replicate ((e :: ft).length + 1) ChanAct.produce) s =
                chanRun (List.replicate (ft.length + 1) ChanAct.produce)
                  (chanStep ChanAct.produce s) := by
            simp only [List.length_cons]
            rw [show ft.length + 1 + 1 = (ft.length + 1) + 1 from rfl,
              List.replicate_succ]
            rfl
          rw [hrun, hstep]
          rw [ih last frest { s with pending := frest, queue := s.queue ++ [e] }
            hrest rfl hh (by simp [List.length_append]; omega)]
          simp

theorem shutdownInv_init : ShutdownInv shutdownInit := by
  simp [ShutdownInv, shutdownInit]

theorem shutdownInv_step (a : ShutdownAct) (s : ShutdownState)
    (h : ShutdownInv s) : ShutdownInv (shutdownStep a s) := by
  obtain ⟨ws, tx, la, sig, cc, sc, tc⟩ := s
  simp only [ShutdownInv] at h ⊢
  cases a <;> cases ws <;> cases tx <;> cases la <;> cases sig <;>
    simp_all [shutdownStep]

theorem shutdownInv_run (acts : List ShutdownAct) (s : ShutdownState)
    (h : ShutdownInv s) : ShutdownInv (shutdownRun acts s) := by
  induction acts generalizing s with
  | nil => exact h
  | cons a rest ih =>
      exact ih (shutdownStep a s) (shutdownInv_step a s h)

/-- Claim C1 (amended): the response classification of `send_request` is
total and exclusive over `(http_status, status, retcode)`, with the HTTP
branch taken on status exactly 200 (not on the whole 2xx class): a non-200
HTTP status always yields a TransportError (`HttpApiError`) carrying the
status and body regardless of body content; status 200 with
`status != "ok" || retcode != 0` yields an ApplicationError (`ApiError`)
carrying the envelope message and retcode; status 200 with
`status == "ok" && retcode == 0` converts `data` (defaulting to `null`
when absent) into the expected type of the caller, a shape mismatch being the
distinct JSON decode error — exactly one of the three outcomes applies. -/
theorem c1_response_classification {R : Type} (decodeR : Json → Option R)
    (httpStatus : Nat) (env : ApiResponse) (bodyText : String) :
    exactlyOneOfThree
      (sendRequestClassify decodeR httpStatus env bodyText).isTransportError
      (sendRequestClassify decodeR httpStatus env bodyText).isApplicationError
      (sendRequestClassify decodeR httpStatus env bodyText).isSuccessPath ∧
    (httpStatus ≠ 200 →
      sendRequestClassify decodeR httpStatus env bodyText =
        .HttpApiError httpStatus bodyText) ∧
    (httpStatus = 200 → (env.status ≠ "ok" ∨ env.retcode ≠ 0) →
      sendRequestClassify decodeR httpStatus env bodyText =
        .ApiError (env.message.getD "未知的 API 错误") env.retcode) ∧
    (httpStatus = 200 → env.status = "ok" → env.retcode = 0 →
      sendRequestClassify decodeR httpStatus env bodyText =
        match decodeR (env.data.getD Json.null) with
        | some value => .Ok value
        | none => .JsonError) := by
  by_cases h200 : httpStatus = 200
  · by_cases hok : env.status = "ok" ∧ env.retcode = 0
    · refine ⟨?_, fun hne => absurd h200 hne, ?_, fun _ _ _ => ?_⟩
      · cases hd : decodeR (env.data.getD Json.null) <;>
          simp [exactlyOneOfThree, sendRequestClassify, h200, hok, hd,
            SendResult.isTransportError, SendResult.isApplicationError,
            SendResult.isSuccessPath]
      · intro _ hbad
        rcases hbad with hb | hb
        · exact absurd hok.1 hb
        · exact absurd hok.2 hb
      · simp [sendRequestClassify, h200, hok]
    · refine ⟨?_, fun hne => absurd h200 hne, fun _ _ => ?_,
        fun _ hst hrc => absurd ⟨hst, hrc⟩ hok⟩
      · simp [exactlyOneOfThree, sendRequestClassify, h200, hok,
          SendResult.isTransportError, SendResult.isApplicationError,
          SendResult.isSuccessPath]
      · simp [sendRequestClassify, h200, hok]
  · refine ⟨?_, fun _ => ?_, fun hx => absurd hx h200,
      fun hx => absurd hx h200⟩
    · simp [exactlyOneOfThree, sendRequestClassify, h200,
        SendResult.isTransportError, SendResult.isApplicationError,
        SendResult.isSuccessPath]
    · simp [sendRequestClassify, h200]

/-- Witness for C1: a 404 response is a TransportError, and a 200 response
with `status = "failed"`, `retcode = 34` is an ApplicationError carrying
the message and retcode. -/
theorem c1_response_classification_witness :
    sendRequestClassify Json.asInt 404 ⟨"ok", 0, none, none⟩ "nf" =
      SendResult.HttpApiError 404 "nf" ∧
    sendRequestClassify Json.asInt 200 ⟨"failed", 34, none, some "no perm"⟩
        "" = SendResult.ApiError "no perm" 34 :=
  ⟨(c1_response_classification Json.asInt 404 ⟨"ok", 0, none, none⟩
      "nf").2.1 (by decide),
   (c1_response_classification Json.asInt 200
      ⟨"failed", 34, none, some "no perm"⟩ "").2.2.1 rfl
      (Or.inl (by decide))⟩

/-- Counterexample to C1 as stated: the code branches on HTTP status
exactly 200, so the 2xx status 201 with a failed envelope is classified as
a TransportError (`HttpApiError`), not the ApplicationError the claim
requires for every 2xx response. -/
theorem c1_counterexample_http_201 :
    (200 ≤ 201 ∧ 201 ≤ 299) ∧
    sendRequestClassify Json.asInt 201
        ⟨"failed", 34, none, some "no perm"⟩ "body" =
      SendResult.HttpApiError 201 "body" ∧
    ¬ (sendRequestClassify Json.asInt 201
        ⟨"failed", 34, none, some "no perm"⟩ "body").isApplicationError :=
  ⟨by decide, by decide, fun h => h⟩

/-- Claim C4 (amended): encoding any constructible `EventKind` whose
message-received payload is scene-coherent (the inner `message_scene`
field agrees with the `MessageEvent` variant) and decoding it back yields
the original value. -/
theorem c4_wire_roundtrip (k : EventKind) (h : k.wireCoherent) :
    decodeEventKind k.encode = some k :=
  decodeEventKind_encode k h

/-- Witness for C4: round-trips of a bot-offline value and of a coherent
friend-scene message-received value. -/
theorem c4_wire_roundtrip_witness :
    decodeEventKind (EventKind.encode (.BotOffline "kicked")) =
      some (.BotOffline "kicked") ∧
    decodeEventKind (EventKind.encode (.MessageReceive c3FriendEvent)) =
      some (.MessageReceive c3FriendEvent) :=
  ⟨c4_wire_roundtrip (.BotOffline "kicked") True.intro,
   c4_wire_roundtrip (.MessageReceive c3FriendEvent) rfl⟩

/-- Counterexample to C4 as stated: a constructible `Friend`-variant
message-received value whose inner `message_scene` is `group` does not
round-trip — its encoding re-dispatches on the serialized scene string and
fails to decode (the payload lacks the `group`/`group_member` fields that
the group shape requires). -/
theorem c4_roundtrip_counterexample :
    decodeEventKind (EventKind.encode c4Mismatch) = none ∧
    ¬ decodeEventKind (EventKind.encode c4Mismatch) = some c4Mismatch :=
  ⟨by decide, by decide⟩

/-- Claim C6 (code bug): the WebHook handler responds 200 on every body,
including one that fails to decode, because `handle_event_message` logs
and swallows both decode and channel-send failures and returns `Ok(())`
on every path; the 500 branch of the handler is therefore unreachable,
contradicting the documented contract that decode/forwarding failures are
reported. -/
theorem c6_webhook_responds_200_always :
    decodeEvent c6BadPayload = none ∧
    axum_webhook_handler true c6BadPayload =
      (200, "Webhook received successfully") ∧
    axum_webhook_handler false c6BadPayload =
      (200, "Webhook received successfully") ∧
    (∀ (receiverOpen : Bool) (payload : Json),
      axum_webhook_handler receiverOpen payload =
        (200, "Webhook received successfully")) := by
  refine ⟨by decide, by decide, by decide, ?_⟩
  intro receiverOpen payload
  cases hd : decodeEvent payload <;> cases receiverOpen <;>
    simp [axum_webhook_handler, handle_event_message, hd]

/-- Claim C2: decoding is total over the closed `event_type` tag set —
every tag outside the set yields a decode failure (`None`, the embedding
of a serde `Err`; decoding is a total function, never a panic), an
undecodable frame is not forwarded into the delivery channel and the
event loop continues with the next frame; and for each of the nineteen
tags in the closed set, a well-formed sample frame decodes to exactly the
corresponding `EventKind` variant with every payload field populated. -/
theorem c2_closed_tag_decoding :
    (∀ (j : Json) (tag : String), reqStr j "event_type" = some tag →
      tag ∉ eventTags → decodeEvent j = none) ∧
    decodeEvent c2UnknownFrame = none ∧
    forwardedEvent true c2UnknownFrame = none ∧
    (chanRun (List.replicate 2 ChanAct.produce)
        (ChanSys.init 16 [c2UnknownFrame, c2BotOfflineFrame])).queue =
      [⟨5, 7, .BotOffline "kicked"⟩] ∧
    (chanRun (List.replicate 2 ChanAct.produce)
        (ChanSys.init 16 [c2UnknownFrame, c2BotOfflineFrame])).pending =
      [] ∧
    ([c2BotOfflineFrame,
      sampleFrame "message_receive" c3FriendData,
      sampleFrame "message_recall"
        (.obj [("message_scene", .str "group"), ("peer_id", .num 21),
               ("message_seq", .num 22), ("sender_id", .num 23),
               ("operator_id", .num 24), ("display_suffix", .str "ds")]),
      sampleFrame "friend_request"
        (.obj [("initiator_id", .str "123"), ("initiator_uid", .num 5),
               ("comment", .str "c"), ("via", .str "v")]),
      sampleFrame "group_join_request"
        (.obj [("group_id", .num 1), ("notification_seq", .num 2),
               ("is_filtered", .bool false), ("initiator_id", .num 3),
               ("comment", .str "c")]),
      sampleFrame "group_invited_join_request"
        (.obj [("group_id", .num 1), ("notification_seq", .num 2),
               ("initiator_id", .num 3), ("target_user_id", .num 4)]),
      sampleFrame "group_invitation"
        (.obj [("group_id", .num 1), ("invitation_seq", .num 2),
               ("initiator_id", .num 3)]),
      sampleFrame "friend_nudge"
        (.obj [("user_id", .num 1), ("is_self_send", .bool false),
               ("is_self_receive", .bool true),
               ("display_action", .str "a"), ("display_suffix", .str "s"),
               ("display_action_img_url", .str "u")]),
      sampleFrame "friend_file_upload"
        (.obj [("user_id", .num 1), ("file_id", .str "f"),
               ("file_name", .str "n"), ("file_size", .num 9),
               ("file_hash", .str "h"), ("is_self", .bool true)]),
      sampleFrame "group_admin_change"
        (.obj [("group_id", .num 1), ("user_id", .num 2),
               ("operator_id", .num 3), ("is_set", .bool true)]),
      sampleFrame "group_essence_message_change"
        (.obj [("group_id", .num 1), ("message_seq", .num 2),
               ("is_set", .bool false)]),
      sampleFrame "group_member_increase"
        (.obj [("group_id", .num 1), ("user_id", .num 2),
               ("operator_id", .num 3), ("invitor_id", .num 4)]),
      sampleFrame "group_member_decrease"
        (.obj [("group_id", .num 1), ("user_id", .num 2),
               ("operator_id", .num 3)]),
      sampleFrame "group_name_change"
        (.obj [("group_id", .num 1), ("group_new_name", .str "n"),
               ("operator_id", .num 2)]),
      sampleFrame "group_message_reaction"
        (.obj [("group_id", .num 1), ("user_id", .num 2),
               ("message_seq", .num 3), ("face_id", .str "f"),
               ("is_add", .bool true)]),
      sampleFrame "group_mute"
        (.obj [("group_id", .num 1), ("user_id", .num 2),
               ("operator_id", .num 3), ("duration", .num 60)]),
      sampleFrame "group_whole_mute"
        (.obj [("group_id", .num 1), ("operator_id", .num 2),
               ("is_mute", .bool true)]),
      sampleFrame "group_nudge"
        (.obj [("group_id", .num 1), ("sender_id", .num 2),
               ("receiver_id", .num 3), ("display_action", .str "a"),
               ("display_suffix", .str "s"),
               ("display_action_img_url", .str "u")]),
      sampleFrame "group_file_upload"
        (.obj [("group_id", .num 1), ("user_id", .num 2),
               ("file_id", .str "f"), ("file_name", .str "n"),
               ("file_size", .num 9)])].map decodeEvent =
    [some ⟨5, 7, .BotOffline "kicked"⟩,
     some ⟨5, 7, .MessageReceive c3FriendEvent⟩,
     some ⟨5, 7, .MessageRecall .Group 21 22 23 24 "ds"⟩,
     some ⟨5, 7, .FriendRequest "123" 5 "c" "v"⟩,
     some ⟨5, 7, .GroupJoinRequest 1 2 false 3 "c"⟩,
     some ⟨5, 7, .GroupInvitedJoinRequest 1 2 3 4⟩,
     some ⟨5, 7, .GroupInvitation 1 2 3⟩,
     some ⟨5, 7, .FriendNudge 1 false true "a" "s" "u"⟩,
     some ⟨5, 7, .FriendFileUpload 1 "f" "n" 9 "h" true⟩,
     some ⟨5, 7, .GroupAdminChange 1 2 3 true⟩,
     some ⟨5, 7, .GroupEssenceMessageChange 1 2 false⟩,
     some ⟨5, 7, .GroupMemberIncrease 1 2 (some 3) (some 4)⟩,
     some ⟨5, 7, .GroupMemberDecrease 1 2 (some 3)⟩,
     some ⟨5, 7, .GroupNameChange 1 "n" 2⟩,
     some ⟨5, 7, .GroupMessageReaction 1 2 3 "f" true⟩,
     some ⟨5, 7, .GroupMute 1 2 3 60⟩,
     some ⟨5, 7, .GroupWholeMute 1 2 true⟩,
     some ⟨5, 7, .GroupNudge 1 2 3 "a" "s" "u"⟩,
     some ⟨5, 7, .GroupFileUpload 1 2 "f" "n" 9⟩]) := by
  refine ⟨decodeEvent_unknown_tag, by decide, by decide, ?_, ?_, ?_⟩
  · decide
  · rfl
  · decide

/-- Witness for C2: the universal unknown-tag clause applied to the
concrete frame whose tag is `super_event`. -/
theorem c2_closed_tag_decoding_witness :
    decodeEvent c2UnknownFrame = none :=
  c2_closed_tag_decoding.1 c2UnknownFrame "super_event" (by decide)
    (by decide)

/-- Claim C3: for every message-received payload the nested
`message_scene` field deterministically selects the `MessageEvent` shape
(`friend`/`group`/`temp`); a payload whose scene is missing (defaulting to
the empty string) or outside the set fails to decode, and that failure is
confined to the frame (the loop goes on to deliver the next frame); a
group-scene payload missing the required `group` or `group_member` field
fails to decode. -/
theorem c3_message_scene_dispatch :
    (∀ v : Json,
      (sceneOf v = "friend" → ∀ m, decodeMessageEvent v = some m →
        ∃ fm, m = MessageEvent.Friend fm) ∧
      (sceneOf v = "group" → ∀ m, decodeMessageEvent v = some m →
        ∃ gm, m = MessageEvent.Group gm) ∧
      (sceneOf v = "temp" → ∀ m, decodeMessageEvent v = some m →
        ∃ tm, m = MessageEvent.Temp tm) ∧
      (sceneOf v ∉ (["friend", "group", "temp"] : List String) →
        decodeMessageEvent v = none)) ∧
    decodeMessageEvent c3FriendData = some c3FriendEvent ∧
    decodeMessageEvent c3GroupData = some c3GroupEvent ∧
    decodeMessageEvent c3TempData = some c3TempEvent ∧
    decodeMessageEvent c3NoSceneData = none ∧
    sceneOf c3NoSceneData = "" ∧
    decodeMessageEvent c3BadSceneData = none ∧
    decodeMessageEvent c3NoMemberData = none ∧
    decodeMessageEvent c3NoGroupData = none ∧
    decodeEvent (sampleFrame "message_receive" c3BadSceneData) = none ∧
    (chanRun (List.replicate 2 ChanAct.produce)
        (ChanSys.init 16 [sampleFrame "message_receive" c3BadSceneData,
                          c2BotOfflineFrame])).queue =
      [⟨5, 7, .BotOffline "kicked"⟩] := by
  have hsamples :
      [c3FriendData, c3GroupData, c3TempData].map decodeMessageEvent =
        [some c3FriendEvent, some c3GroupEvent, some c3TempEvent] := by
    decide
  have hfails :
      [c3NoSceneData, c3BadSceneData, c3NoMemberData,
        c3NoGroupData].map decodeMessageEvent = [none, none, none, none] := by
    decide
  simp only [List.map_cons, List.map_nil, List.cons.injEq,
    and_true] at hsamples hfails
  obtain ⟨hsa, hsb, hsc⟩ := hsamples
  obtain ⟨hfa, hfb, hfc, hfd⟩ := hfails
  refine ⟨?_, hsa, hsb, hsc, hfa, by decide, hfb, hfc, hfd, by decide,
    by decide⟩
  intro v
  have hbody : decodeMessageEvent v =
      (if sceneOf v = "friend" then
        (decodeFriendMessage v).map MessageEvent.Friend
       else if sceneOf v = "group" then
        (decodeGroupMessage v).map MessageEvent.Group
       else if sceneOf v = "temp" then
        (decodeTempMessage v).map MessageEvent.Temp
       else none) := rfl
  refine ⟨?_, ?_, ?_, ?_⟩
  · intro hs m hm
    rw [hbody, hs] at hm
    cases hdec : decodeFriendMessage v with
    | none => rw [hdec] at hm; simp at hm
    | some fm =>
        rw [hdec] at hm
        simp at hm
        exact ⟨fm, hm.symm⟩
  · intro hs m hm
    rw [hbody, hs] at hm
    cases hdec : decodeGroupMessage v with
    | none => rw [hdec] at hm; simp at hm
    | some gm =>
        rw [hdec] at hm
        simp at hm
        exact ⟨gm, hm.symm⟩
  · intro hs m hm
    rw [hbody, hs] at hm
    cases hdec : decodeTempMessage v with
    | none => rw [hdec] at hm; simp at hm
    | some tm =>
        rw [hdec] at hm
        simp at hm
        exact ⟨tm, hm.symm⟩
  · intro hns
    simp only [List.mem_cons, List.not_mem_nil, or_false, not_or] at hns
    obtain ⟨h1, h2, h3⟩ := hns
    rw [hbody]
    simp [h1, h2, h3]

/-- Witness for C3: the universal dispatch clause applied to the concrete
payload whose `message_scene` is `"channel"`. -/
theorem c3_message_scene_dispatch_witness :
    decodeMessageEvent c3BadSceneData = none :=
  (c3_message_scene_dispatch.1 c3BadSceneData).2.2.2 (by decide)

/-- Claim C5 (amended): delivering the two literal frames of the spec
scenario yields exactly one `Event` — the bot-offline one — because the
`group_nudge` frame lacks the required `display_action`, `display_suffix`
and `display_action_img_url` payload fields of `EventKind::GroupNudge`,
so it fails to decode and is dropped while the loop continues. -/
theorem c5_two_frames_delivery :
    (chanRun (List.replicate 2 ChanAct.produce)
        (ChanSys.init 16 [c5Frame1, c5Frame2])).queue =
      [⟨2, 1, .BotOffline "kicked"⟩] ∧
    (chanRun (List.replicate 2 ChanAct.produce)
        (ChanSys.init 16 [c5Frame1, c5Frame2])).held = none ∧
    (chanRun (List.replicate 2 ChanAct.produce)
        (ChanSys.init 16 [c5Frame1, c5Frame2])).pending = [] ∧
    [c5Frame1, c5Frame2].filterMap decodeEvent =
      [⟨2, 1, .BotOffline "kicked"⟩] ∧
    decodeEvent c5Frame2 = some ⟨2, 1, .BotOffline "kicked"⟩ :=
  ⟨by decide, by decide, by rfl, by decide, by decide⟩

/-- Counterexample to C5 as stated: the first literal frame carries the
`group_nudge` tag but does not decode at all (its payload is missing the
required display fields), so the scenario cannot yield a first `Event`
with the GroupNudge payload. -/
theorem c5_frame1_counterexample :
    reqStr c5Frame1 "event_type" = some "group_nudge" ∧
    decodeEvent c5Frame1 = none ∧
    decodeEventKindTag "group_nudge"
        (.obj [("group_id", .num 1), ("sender_id", .num 2),
               ("receiver_id", .num 3)]) = none :=
  ⟨by decide, by decide, by decide⟩

/-- Claim C7: over every interleaving of the atomic mutex-protected
sections of `shutdown()` and the event loop, the close frame is sent at
most once (no double-close), the oneshot shutdown signal is fired at most
once and the sender is taken out of its slot at most once (consumed by
exactly one actor), and a second `shutdown()` call is a no-op.  Each step
of the model is one critical section of the shared `Arc<Mutex<...>>`
slots, so the handle is only ever accessed by the actor holding the lock,
and every access is a take-and-check rather than a cached reference. -/
theorem c7_shutdown_idempotent_race_free :
    (∀ acts : List ShutdownAct,
      (shutdownRun acts shutdownInit).closeCount ≤ 1 ∧
      (shutdownRun acts shutdownInit).sendOkCount ≤ 1 ∧
      (shutdownRun acts shutdownInit).txTakeCount ≤ 1) ∧
    (∀ t : ShutdownState,
      shutdownStep .Shutdown (shutdownStep .Shutdown t) =
        shutdownStep .Shutdown t) := by
  constructor
  · intro acts
    have h := shutdownInv_run acts shutdownInit shutdownInv_init
    exact ⟨h.1, h.2.1, h.2.2.1⟩
  · intro t
    by_cases h : t.txSlot = true
    · simp [shutdownStep, h]
    · simp [shutdownStep, h]

/-- Claim C8: in every scheduled interleaving of the event loop and the
consumer, the events the consumer has received, followed by the channel
buffer, the suspended send and the decodable remainder of the unread
frames, are exactly the successfully decoded events in transport order —
in particular the received list is always a prefix of the decoded frame
sequence, so delivery never reorders events. -/
theorem c8_fifo_delivery_order (cap : Nat) (frames : List Json)
    (acts : List ChanAct) :
    (chanRun acts (ChanSys.init cap frames)).trace =
      frames.filterMap decodeEvent ∧
    ∃ rest, (chanRun acts (ChanSys.init cap frames)).received ++ rest =
      frames.filterMap decodeEvent := by
  have hinit : (ChanSys.init cap frames).trace =
      frames.filterMap decodeEvent := by
    simp [ChanSys.init, ChanSys.trace, Option.toList]
  have h := (chanRun_trace acts (ChanSys.init cap frames)).trans hinit
  refine ⟨h, ⟨(chanRun acts (ChanSys.init cap frames)).queue ++
    (chanRun acts (ChanSys.init cap frames)).held.toList ++
    (chanRun acts (ChanSys.init cap frames)).pending.filterMap decodeEvent,
    ?_⟩⟩
  rw [← h]
  simp [ChanSys.trace, List.append_assoc]

/-- Claim C9: with a channel of capacity `k > 0` and a consumer that never
reads, processing `k+1` decodable frames leaves the loop suspended in the
delivery of the last event — the first `k` events sit in the FIFO buffer,
the `(k+1)`-th is retained by the suspended send, nothing is dropped and
no error outcome exists — a further producer step changes nothing, and as
soon as the consumer reads one item the suspended delivery completes. -/
theorem c9_backpressure (k : Nat) (front : List Event) (last : Event)
    (frames : List Json) (hk : 0 < k)
    (hmap : frames.map decodeEvent = (front ++ [last]).map some)
    (hlen : front.length = k) :
    chanRun (List.replicate (k + 1) ChanAct.produce)
        (ChanSys.init k frames) =
      { cap := k, pending := [], held := some last, queue := front,
        received := [] } ∧
    chanStep ChanAct.produce
        { cap := k, pending := [], held := some last, queue := front,
          received := [] } =
      { cap := k, pending := [], held := some last, queue := front,
        received := [] } ∧
    chanStep ChanAct.produce (chanStep ChanAct.consume
        { cap := k, pending := [], held := some last, queue := front,
          received := [] }) =
      { cap := k, pending := [], held := none,
        queue := front.drop 1 ++ [last], received := front.take 1 } := by
  have h1 := chanRun_produce_overflow front last frames
    (ChanSys.init k frames) hmap rfl rfl (by simp [ChanSys.init, hlen])
  refine ⟨?_, ?_, ?_⟩
  · rw [hlen] at h1
    simpa [ChanSys.init] using h1
  · have hnl : ¬ front.length < k := by omega
    simp [chanStep, hnl]
  · obtain ⟨a, ft, rfl⟩ : ∃ a ft, front = a :: ft := by
      cases front with
      | nil => simp at hlen; omega
      | cons a ft => exact ⟨a, ft, rfl⟩
    have hlt : ft.length < k := by
      simp only [List.length_cons] at hlen
      omega
    simp [chanStep, hlt]

/-- Witness for C9: capacity 1 with two decodable bot-offline frames — the
run suspends holding the second event, and one consumer read resumes it. -/
theorem c9_backpressure_witness :
    chanRun (List.replicate 2 ChanAct.produce)
        (ChanSys.init 1 [c2BotOfflineFrame, c5Frame2]) =
      { cap := 1, pending := [], held := some ⟨2, 1, .BotOffline "kicked"⟩,
        queue := [⟨5, 7, .BotOffline "kicked"⟩], received := [] } :=
  (c9_backpressure 1 [⟨5, 7, .BotOffline "kicked"⟩]
    ⟨2, 1, .BotOffline "kicked"⟩ [c2BotOfflineFrame, c5Frame2]
    (by decide) (by decide) (by decide)).1

/-- Claim C10: the API target URL differs between the two transport modes.
With the WebSocket configuration the base URL keeps the endpoint host,
maps the scheme ws→http / wss→https, and sets the path to `api/` with a
trailing slash, so joining an action name appends it: `/api/<action>`.
With the WebHook configuration the base path is `api` without a trailing
slash, so joining replaces the last segment and the request goes to
`/<action>` with no `api` segment. -/
theorem c10_api_url_by_mode (wsCfg : WebSocketConfig)
    (whCfg : WebHookConfig) (action : String)
    (hseg : isPlainSegment action = true) :
    (wsCfg.ws_endpoint.scheme = "ws" →
      ∃ base, apiBaseUrl (.WebSocket wsCfg) = some base ∧
        base.scheme = "http" ∧ base.path = "/api/" ∧
        (sendRequestUrl base action).path = "/api/" ++ action) ∧
    (wsCfg.ws_endpoint.scheme = "wss" →
      ∃ base, apiBaseUrl (.WebSocket wsCfg) = some base ∧
        base.scheme = "https" ∧ base.path = "/api/" ∧
        (sendRequestUrl base action).path = "/api/" ++ action) ∧
    (∀ base, apiBaseUrl (.WebHook whCfg) = some base →
      base.path = "/api" ∧
      (sendRequestUrl base action).path = "/" ++ action ∧
      (sendRequestUrl base action).path ≠ "/api/" ++ action) := by
  have hks : keepThroughLastSlash "/api/" = "/api/" := by decide
  have hka : keepThroughLastSlash "/api" = "/" := by decide
  have hsp : ¬ ("api/" : String).data.head? = some '/' := by decide
  have hsp2 : ¬ ("api" : String).data.head? = some '/' := by decide
  have happ : ("/" : String) ++ "api/" = "/api/" := by decide
  have happ2 : ("/" : String) ++ "api" = "/api" := by decide
  refine ⟨?_, ?_, ?_⟩
  · intro hscheme
    refine ⟨Url.setPath { wsCfg.ws_endpoint with scheme := "http" } "api/",
      ?_, rfl, ?_, ?_⟩
    · simp [apiBaseUrl, hscheme]
    · simp [Url.setPath, hsp, happ]
    · simp [sendRequestUrl, Url.join, Url.setPath, hsp, happ, hks]
  · intro hscheme
    refine ⟨Url.setPath { wsCfg.ws_endpoint with scheme := "https" } "api/",
      ?_, rfl, ?_, ?_⟩
    · simp [apiBaseUrl, hscheme]
    · simp [Url.setPath, hsp, happ]
    · simp [sendRequestUrl, Url.join, Url.setPath, hsp, happ, hks]
  · intro base hbase
    have hb : base = Url.setPath whCfg.http_endpoint "api" := by
      simpa [apiBaseUrl] using hbase.symm
    subst hb
    refine ⟨by simp [Url.setPath, hsp2, happ2], ?_, ?_⟩
    · simp [sendRequestUrl, Url.join, Url.setPath, hsp2, happ2, hka]
    · intro hcontra
      simp only [sendRequestUrl, Url.join, Url.setPath, if_neg hsp2, happ2,
        hka] at hcontra
      have hlen := congrArg String.length hcontra
      rw [String.length_append, String.length_append] at hlen
      have h1 : ("/" : String).length = 1 := by decide
      have h5 : ("/api/" : String).length = 5 := by decide
      rw [h1, h5] at hlen
      omega

/-- Witness for C10: concrete endpoints and the action
`get_login_info`. -/
theorem c10_api_url_by_mode_witness :
    ∃ base,
      apiBaseUrl (.WebSocket ⟨⟨"ws", "127.0.0.1", some 3000, "/"⟩, none⟩) =
        some base ∧
      base.scheme = "http" ∧ base.path = "/api/" ∧
      (sendRequestUrl base "get_login_info").path = "/api/get_login_info" :=
  (c10_api_url_by_mode ⟨⟨"ws", "127.0.0.1", some 3000, "/"⟩, none⟩
    ⟨"127.0.0.1", 8080, ⟨"http", "127.0.0.1", some 3000, "/"⟩, none⟩
    "get_login_info" (by decide)).1 rfl

end Milky
